/-
Verification of the experiment-collection store builder and reader.

This file gives a shallow embedding of the core of the repository:
  - lib/helpers.py          (store builder: tables, CAGs, per-sample abundance)
  - lib/experiment_collection.py  (reader: catalog discovery, matrix assembly)
  - make-experiment-collection.py (build driver: ordering, abort/cleanup)

Modelling conventions:
  - A pandas DataFrame is a list of rows over a fixed column list; a cell is
    `Option JVal` where `none` models NaN (a missing value).
  - An HDF5 store is an association list from normalized keys ("/name") to
    DataFrames; `to_hdf(..., append=True)` appends rows when the key exists.
  - JSON inputs are a `Json` inductive; file-path indirection, gzip and S3
    fetches are collapsed: functions receive the parsed value directly.
  - Python exceptions (assert failures, pandas errors) are `Except.error`.
  - Numeric values are rationals; the claims settled here never evaluate a
    logarithm, because the code path that would compute one always raises
    first (see `add_abundance_to_store` below).
-/
import Mathlib

deriving instance DecidableEq for Except

/-! ### Python string primitives (str.startswith, str.replace, str.split) -/

/-- Python `s.startswith(p)`. -/
def pyStartsWith (s p : String) : Bool := p.data.isPrefixOf s.data

/-- Fuel-driven worker for Python `str.replace`: replaces non-overlapping
occurrences of `pat` left to right.  The fuel is the input length, enough
because each step consumes at least one character when `pat` is nonempty
(every use in this file has a nonempty pattern). -/
def replaceAllAux (pat rep : List Char) : Nat → List Char → List Char
  | 0, l => l
  | _ + 1, [] => []
  | fuel + 1, c :: rest =>
    if pat.isPrefixOf (c :: rest) then
      rep ++ replaceAllAux pat rep fuel ((c :: rest).drop pat.length)
    else
      c :: replaceAllAux pat rep fuel rest

/-- Python `s.replace(pat, rep)` (replace every occurrence). -/
def pyReplace (s pat rep : String) : String :=
  ⟨replaceAllAux pat.data rep.data s.data.length s.data⟩

/-- Worker for Python `s.split(",")`. -/
def splitCommaAux : List Char → List Char → List (List Char)
  | [], acc => [acc.reverse]
  | c :: rest, acc =>
    if c = ',' then acc.reverse :: splitCommaAux rest [] else splitCommaAux rest (c :: acc)

/-- Python `s.split(",")`. -/
def pySplitComma (s : String) : List String :=
  (splitCommaAux s.data []).map String.mk

/-- make-experiment-collection.py lines 121-122:
`for k in [".", "-"]: sample_name = sample_name.replace(k, "_")`. -/
def canonicalizeSampleName (n : String) : String :=
  pyReplace (pyReplace n "." "_") "-" "_"

/-! ### Data model: cells, rows, DataFrames, HDF5 stores -/

/-- A scalar value held in a DataFrame cell or a JSON leaf. -/
inductive JVal where
  | str (s : String)
  | num (q : ℚ)
deriving DecidableEq

/-- A DataFrame cell; `none` models NaN (a missing value). -/
abbrev Cell := Option JVal

/-- A DataFrame row, keyed by column name. -/
abbrev Row := List (String × Cell)

/-- Association-list lookup (first match wins), used for rows, stores and
JSON objects. -/
def alookup {α β : Type} [DecidableEq α] : List (α × β) → α → Option β
  | [], _ => none
  | p :: rest, k => if p.1 = k then some p.2 else alookup rest k

/-- The cell of row `r` at column `c`; a column missing from the row is NaN. -/
def cellAt (r : Row) (c : String) : Cell := (alookup r c).getD none

/-- A pandas DataFrame: a fixed column list and a list of rows. -/
structure DF where
  cols : List String
  rows : List Row
deriving DecidableEq

/-- Whether a list contains a duplicate element. -/
def listHasDup {α : Type} [DecidableEq α] : List α → Bool
  | [] => false
  | x :: xs => decide (x ∈ xs) || listHasDup xs

/-! ### The HDF5 store -/

/-- An HDF5 store: keys (with a leading slash) mapped to tables. -/
abbrev Store := List (String × DF)

/-- HDF5 keys are normalized with a leading slash: pandas treats the table
name `"abundance"` and the key `"/abundance"` as the same object. -/
def normKey (n : String) : String :=
  if pyStartsWith n "/" then n else "/" ++ n

def lookupStore (st : Store) (k : String) : Option DF := alookup st (normKey k)

def insertStore (st : Store) (k : String) (d : DF) : Store :=
  (normKey k, d) :: st.filter (fun p => !(decide (p.1 = normKey k)))

/-- `df.to_hdf(store, name)` without `append`: (over)write the table. -/
def putHdf (st : Store) (n : String) (d : DF) : Store := insertStore st n d

/-- `df.to_hdf(store, name, append=True)`: append rows to an existing table;
appending a frame whose columns do not match the stored table raises. -/
def putHdfAppend (st : Store) (n : String) (d : DF) : Except String Store :=
  match lookupStore st n with
  | none => .ok (insertStore st n d)
  | some old =>
    if old.cols = d.cols then
      .ok (insertStore st n ⟨old.cols, old.rows ++ d.rows⟩)
    else
      .error "invalid combination of specified and existing table structure"

/-- The rows stored under key `k` before a write (empty when the key is new). -/
def prevRowsAt (st : Store) (k : String) : List Row :=
  match lookupStore st k with
  | some d => d.rows
  | none => []

/-! ### JSON inputs -/

inductive Json where
  | str (s : String)
  | num (q : ℚ)
  | arr (xs : List Json)
  | obj (kvs : List (String × Json))

def Json.isArr : Json → Bool
  | .arr _ => true
  | _ => false

/-- helpers.py `read_json` (lines 308-344): fetch/decompress collapsed; the
surviving behaviour is the final `assert isinstance(dat, dict)`, which makes
any non-object JSON (for example a list) a fatal error. -/
def readJson (j : Json) : Except String (List (String × Json)) :=
  match j with
  | .obj kvs => .ok kvs
  | _ => .error "the JSON input must be a dictionary"

/-- A JSON scalar as a DataFrame cell value. -/
def jvalOfJson : Json → Option JVal
  | .str s => some (.str s)
  | .num q => some (.num q)
  | _ => none

/-! ### helpers.py: InputTransformer functions -/

/-- helpers.py `format_eggnog_ko_df` (lines 60-74): keep the rows whose
`KEGG_KOs` cell is a string of positive length, and emit one `(gene, ko)`
row per comma-separated token of that string.  A NaN cell (a float in
pandas) fails the `isinstance(v, str)` test and is dropped; a numeric cell
likewise. -/
def format_eggnog_ko_df (df : DF) : DF :=
  ⟨["gene", "ko"],
    (df.rows.filter (fun r =>
        match cellAt r "KEGG_KOs" with
        | some (.str s) => decide (0 < s.data.length)
        | _ => false)).flatMap (fun r =>
      (pySplitComma (match cellAt r "KEGG_KOs" with
        | some (.str s) => s
        | _ => "")).map (fun ko =>
          [("gene", cellAt r "#query_name"), ("ko", some (.str ko))]))⟩

/-- helpers.py `format_eggnog_cluster_df` (lines 93-98): project to the
`#query_name` and `seed_eggNOG_ortholog` columns, rename them, and
`dropna()` the rows that hold a NaN. -/
def format_eggnog_cluster_df (df : DF) : DF :=
  ⟨["gene", "eggnog_cluster"],
    ((df.rows.map (fun r =>
        [("gene", cellAt r "#query_name"),
         ("eggnog_cluster", cellAt r "seed_eggNOG_ortholog")])).filter
      (fun r => r.all (fun p => p.2.isSome)))⟩

/-! ### helpers.py: add_table_to_store -/

/-- helpers.py line 126: `df.fillna("none", inplace=True)` — every NaN cell
becomes the literal string "none".  Rows are normalized to the column list,
since a pandas DataFrame holds exactly one cell per column. -/
def fillna (df : DF) : DF :=
  ⟨df.cols,
    df.rows.map (fun r =>
      df.cols.map (fun c => (c, some ((cellAt r c).getD (.str "none")))))⟩

/-- helpers.py line 145: `filtered_df.shape[0] == filtered_df.dropna().shape[0]`,
i.e. no row of the frame contains a NaN cell. -/
def noNaN (df : DF) : Bool :=
  df.rows.all (fun r => df.cols.all (fun c => (cellAt r c).isSome))

/-- The loop of helpers.py lines 129-152: apply each filter function to the
(already fillna-ed) table, assert the result has no NaNs, and write it. -/
def addTablesLoop (df : DF) : List (String × (DF → DF)) → Store → Except String Store
  | [], st => .ok st
  | (nm, f) :: rest, st =>
    if noNaN (f df) then addTablesLoop df rest (putHdf st nm (f df))
    else .error "NaNs in DataFrame"

/-- helpers.py `add_table_to_store` (lines 101-152).  The `pd.read_table`
parsing (sep, header, names, comment) is collapsed: the function receives
the parsed table.  `data_columns` only sets HDF5 indexing hints and has no
observable effect on reads, so it is not modelled. -/
def add_table_to_store (table : DF) (store : Store)
    (filter_function_dict : List (String × (DF → DF))) : Except String Store :=
  addTablesLoop (fillna table) filter_function_dict store

/-! ### helpers.py: add_cags_to_store -/

/-- Extract the member-gene lists of the CAG mapping; each gene id must be a
JSON scalar (a non-scalar cell cannot be serialized to an HDF5 table). -/
def cagListsOf : List (String × Json) → Except String (List (String × List JVal))
  | [] => .ok []
  | (cid, v) :: rest =>
    match v with
    | .arr gl =>
      match gl.mapM jvalOfJson with
      | none => .error "cannot serialize a non-scalar gene id"
      | some gl' =>
        match cagListsOf rest with
        | .error e => .error e
        | .ok tail => .ok ((cid, gl') :: tail)
    | _ => .error "CAGs must be formatted as a dict of lists"

/-- helpers.py `add_cags_to_store` (lines 155-176): read the JSON (which
itself asserts the value is a dict), assert every value is a list, build the
`(cag, gene)` long table, assert it is nonempty, and write it under "cags".
Returns the parsed CAG mapping alongside the new store. -/
def add_cags_to_store (cags_json : Json) (store : Store) :
    Except String (Store × List (String × List JVal)) :=
  match readJson cags_json with
  | .error e => .error e
  | .ok kvs =>
    if kvs.all (fun p => p.2.isArr) then
      match cagListsOf kvs with
      | .error e => .error e
      | .ok cagsD =>
        let rows : List Row := cagsD.flatMap (fun p =>
          p.2.map (fun g => [("cag", some (.str p.1)), ("gene", some g)]))
        if 0 < rows.length then
          .ok (putHdf store "cags" ⟨["cag", "gene"], rows⟩, cagsD)
        else .error "No CAGs were detected"
    else .error "CAGs must be formatted as a dict of lists"

/-! ### helpers.py: add_abundance_to_store -/

/-- One validated element of the abundance JSON results list. -/
structure AbundRec where
  gene : JVal
  abund : ℚ
  others : List (String × JVal)
deriving DecidableEq

/-- Python `float(v)`; a non-numeric value is a coercion error (numeric
strings, which Python would also accept, do not occur in these inputs). -/
def jsonToFloat : Json → Except String ℚ
  | .num q => .ok q
  | _ => .error "could not convert value to float"

/-- The per-record key check of helpers.py lines 194-199: every key of
`other_keys`, the abundance key and the gene id key must be present. -/
def checkRecKeys (other_keys : List String) (abundance_key gene_id_key : String)
    (d : Json) : Bool :=
  match d with
  | .obj kvs =>
    other_keys.all (fun k => (alookup kvs k).isSome)
      && (alookup kvs abundance_key).isSome
      && (alookup kvs gene_id_key).isSome
  | _ => false

/-- The record-building comprehension of helpers.py lines 202-214. -/
def buildRec (abundance_key gene_id_key : String) (other_keys : List String)
    (d : Json) : Except String AbundRec :=
  match d with
  | .obj kvs =>
    match (alookup kvs gene_id_key).bind jvalOfJson with
    | none => .error "cannot serialize a non-scalar gene id"
    | some g =>
      match jsonToFloat ((alookup kvs abundance_key).getD (.num 0)) with
      | .error e => .error e
      | .ok q =>
        match (other_keys.mapM (fun k => ((alookup kvs k).getD (.num 0)) |> jvalOfJson)) with
        | none => .error "cannot serialize a non-scalar value"
        | some vs => .ok ⟨g, q, other_keys.zip vs⟩
  | _ => .error "record is not a dict"

def buildRecs (abundance_key gene_id_key : String) (other_keys : List String) :
    List Json → Except String (List AbundRec)
  | [] => .ok []
  | d :: rest =>
    match buildRec abundance_key gene_id_key other_keys d with
    | .error e => .error e
    | .ok r =>
      match buildRecs abundance_key gene_id_key other_keys rest with
      | .error e => .error e
      | .ok tail => .ok (r :: tail)

/-- helpers.py lines 184-214 of `add_abundance_to_store`: read the sample
JSON (a dict), extract the results list, check every element has the
required keys, then build the records (coercing the abundance to a float). -/
def parseAbundanceRecords (sampleJson : Json) (results_key abundance_key : String)
    (other_keys : List String) (gene_id_key : String) :
    Except String (List AbundRec) :=
  match readJson sampleJson with
  | .error e => .error e
  | .ok kvs =>
    match alookup kvs results_key with
    | none => .error "results key is missing"
    | some v =>
      match v with
      | .arr ds =>
        if ds.all (checkRecKeys other_keys abundance_key gene_id_key) then
          buildRecs abundance_key gene_id_key other_keys ds
        else .error "a record is missing a required key"
      | _ => .error "results must be a list"

/-- The per-sample gene DataFrame of helpers.py lines 202-217: columns
`gene_id_key`, `abundance_key`, the `other_keys`, and the added "sample". -/
def mkSampleDF (recs : List AbundRec) (abundance_key : String)
    (other_keys : List String) (gene_id_key : String) (sample_name : String) : DF :=
  ⟨[gene_id_key, abundance_key] ++ other_keys ++ ["sample"],
    recs.map (fun r =>
      [(gene_id_key, some r.gene), (abundance_key, some (.num r.abund))]
        ++ r.others.map (fun p => (p.1, some p.2))
        ++ [("sample", some (.str sample_name))])⟩

/-- helpers.py line 249: `sample_dat.set_index(gene_id_key)[abundance_key].to_dict()`.
With a duplicated gene id, the later row wins in `to_dict`, hence the lookup
over the reversed list. -/
def abundDictGet (recs : List AbundRec) (g : JVal) : ℚ :=
  (alookup (recs.reverse.map (fun r => (r.gene, r.abund))) g).getD 0

/-- `np.mean` over rationals: the sum divided by the length.  For an empty
list np.mean is NaN; this model yields 0, and both fail the strict `> 0`
filter applied to every use of this mean, so the difference is unobservable. -/
def meanQ (l : List ℚ) : ℚ := l.sum / (l.length : ℚ)

/-- helpers.py lines 252-261: the mean abundance of each CAG in this sample,
taking 0 for member genes absent from the sample records. -/
def cagMeanRows (cagsD : List (String × List JVal)) (recs : List AbundRec) :
    List (String × ℚ) :=
  cagsD.map (fun p => (p.1, meanQ (p.2.map (fun g => abundDictGet recs g))))

/-- helpers.py lines 252-273: the CAG DataFrame for one sample — the mean
rows, filtered to strictly positive means (line 264), with the sample name
added.  Control only reaches this code when `abundance_key = "clr"` (see
`add_abundance_to_store`), so the `if abundance_key != "clr"` at line 270 is
false in every execution that gets here and no clr column is ever added. -/
def mkCagDF (cagsD : List (String × List JVal)) (recs : List AbundRec)
    (abundance_key : String) (sample_name : String) : DF :=
  ⟨["cag_id", abundance_key, "sample"],
    ((cagMeanRows cagsD recs).filter (fun p => decide (0 < p.2))).map (fun p =>
      [("cag_id", some (.str p.1)), (abundance_key, some (.num p.2)),
       ("sample", some (.str sample_name))])⟩

/-- helpers.py `add_abundance_to_store` (lines 179-287).

When `abundance_key` is not "clr", line 225 evaluates
`if sample_dat[abundance_key] <= 0:` — calling `bool()` on a pandas Series,
which raises `ValueError` unconditionally (`NDFrame.__bool__` always raises
"The truth value of a Series is ambiguous").  The exception fires before
anything is written, so the gene rows are appended, and the CAG rows
derived, only when `abundance_key = "clr"`. -/
def add_abundance_to_store (sample_name : String) (sampleJson : Json)
    (store : Store) (cags : Option (List (String × List JVal)))
    (results_key abundance_key : String) (other_keys : List String)
    (gene_id_key : String) : Except String Store :=
  match parseAbundanceRecords sampleJson results_key abundance_key other_keys gene_id_key with
  | .error e => .error e
  | .ok recs =>
    if abundance_key = "clr" then
      match putHdfAppend store "abundance"
          (mkSampleDF recs abundance_key other_keys gene_id_key sample_name) with
      | .error e => .error e
      | .ok store1 =>
        match cags with
        | none => .ok store1
        | some cagsD =>
          putHdfAppend store1 "cag_abundance" (mkCagDF cagsD recs abundance_key sample_name)
    else
      .error "ValueError: The truth value of a Series is ambiguous."

/-! ### experiment_collection.py: the reader -/

/-- A pandas Series produced by `set_index(k)[m]`: (index cell, value cell)
pairs.  An index entry can itself be NaN, hence `Cell` on both sides. -/
abbrev Series := List (Cell × Cell)

/-- experiment_collection.py `ExperimentCollection.__init__` (lines 11-31).
The file-existence assert is a path-level check outside this model; the
`lru_cache` decorators memoize pure reads of an immutable store and are
observationally invisible. -/
structure ExperimentCollection where
  store : Store
  gene_id_key : String
  abund_id_key : String

/-- Lines 26-31: the sample catalog — every store key starting with
"/abundance/", with that prefix replaced away. -/
def ExperimentCollection.all_samples (ec : ExperimentCollection) : List String :=
  ((ec.store.map (fun p => p.1)).filter (fun k => pyStartsWith k "/abundance/")).map
    (fun k => pyReplace k "/abundance/" "")

/-- experiment_collection.py `sample_gene_abundance` (lines 73-95): read the
per-sample dataset `/abundance/<sample_id>` (a missing key is a fatal
`KeyError` from `pd.read_hdf`), assert the gene id column and the metric
column exist, and return `set_index(gene_id_key)[metric]`. -/
def ExperimentCollection.sample_gene_abundance (ec : ExperimentCollection)
    (sample_id : String) (metric : Option String) : Except String Series :=
  let m := metric.getD ec.abund_id_key
  match lookupStore ec.store ("/abundance/" ++ sample_id) with
  | none => .error ("No object named /abundance/" ++ sample_id ++ " in the file")
  | some abund =>
    if ec.gene_id_key ∈ abund.cols then
      if m ∈ abund.cols then
        .ok (abund.rows.map (fun r => (cellAt r ec.gene_id_key, cellAt r m)))
      else .error ("Column " ++ m ++ " not found for " ++ sample_id)
    else .error ("Column " ++ ec.gene_id_key ++ " not found for " ++ sample_id)

/-- experiment_collection.py `sample_cag_abundance` (lines 97-119): the same
read at `/cag_abundance/<sample_id>`, with the fixed index column "cag_id". -/
def ExperimentCollection.sample_cag_abundance (ec : ExperimentCollection)
    (sample_id : String) (metric : Option String) : Except String Series :=
  let m := metric.getD ec.abund_id_key
  match lookupStore ec.store ("/cag_abundance/" ++ sample_id) with
  | none => .error ("No object named /cag_abundance/" ++ sample_id ++ " in the file")
  | some abund =>
    if "cag_id" ∈ abund.cols then
      if m ∈ abund.cols then
        .ok (abund.rows.map (fun r => (cellAt r "cag_id", cellAt r m)))
      else .error ("Column " ++ m ++ " not found for " ++ sample_id)
    else .error ("Column cag_id not found for " ++ sample_id)

/-- The value of a series at an index label (first match; `none` when the
label is absent). -/
def seriesGet (s : Series) (i : Cell) : Cell := (alookup s i).getD none

/-- pandas `Series.reindex(labels)`: raises when the existing index has
duplicate labels ("cannot reindex from a duplicate axis"); otherwise one
entry per requested label, NaN for labels absent from the index. -/
def reindexSeries (s : Series) (labels : List JVal) : Except String Series :=
  if listHasDup (s.map (fun p => p.1)) then
    .error "cannot reindex from a duplicate axis"
  else
    .ok (labels.map (fun g => (some g, seriesGet s (some g))))

/-- The per-sample loop of `gene_abundance` (lines 59-68): fetch each
sample series and reindex it against the requested genes.  The Python code
collects the columns in a dict and builds one wide frame at the end; the
dict of (sample, series) pairs carries the same cells. -/
def geneAbundanceLoop (ec : ExperimentCollection) (genes : Option (List JVal))
    (m : String) : List String → Except String (List (String × Series))
  | [] => .ok []
  | s :: ss =>
    match ec.sample_gene_abundance s (some m) with
    | .error e => .error e
    | .ok ser =>
      match (match genes with
             | none => Except.ok ser
             | some gl => reindexSeries ser gl) with
      | .error e => .error e
      | .ok ser' =>
        match geneAbundanceLoop ec genes m ss with
        | .error e => .error e
        | .ok rest => .ok ((s, ser') :: rest)

/-- experiment_collection.py `gene_abundance` (lines 33-71): default the
sample list to the catalog; an explicitly requested sample that is not in
the catalog is a fatal assertion error; default the metric to the build-time
abundance key; then assemble the per-sample series. -/
def ExperimentCollection.gene_abundance (ec : ExperimentCollection)
    (genes : Option (List JVal)) (samples : Option (List String))
    (metric : Option String) : Except String (List (String × Series)) :=
  let m := metric.getD ec.abund_id_key
  match samples with
  | none => geneAbundanceLoop ec genes m ec.all_samples
  | some ss =>
    if ss.all (fun s => decide (s ∈ ec.all_samples)) then
      geneAbundanceLoop ec genes m ss
    else .error "is not a valid sample"

/-- The per-sample loop of `cag_abundance` (lines 175-180). -/
def cagAbundanceLoop (ec : ExperimentCollection) (cags : Option (List JVal))
    (m : String) : List String → Except String (List (String × Series))
  | [] => .ok []
  | s :: ss =>
    match ec.sample_cag_abundance s (some m) with
    | .error e => .error e
    | .ok ser =>
      match (match cags with
             | none => Except.ok ser
             | some cl => reindexSeries ser cl) with
      | .error e => .error e
      | .ok ser' =>
        match cagAbundanceLoop ec cags m ss with
        | .error e => .error e
        | .ok rest => .ok ((s, ser') :: rest)

/-- experiment_collection.py `cag_abundance` (lines 154-183): unlike
`gene_abundance`, it performs no membership check of the requested samples
against the catalog — it goes straight to the per-sample reads. -/
def ExperimentCollection.cag_abundance (ec : ExperimentCollection)
    (cags : Option (List JVal)) (samples : Option (List String))
    (metric : Option String) : Except String (List (String × Series)) :=
  let m := metric.getD ec.abund_id_key
  cagAbundanceLoop ec cags m (samples.getD ec.all_samples)

/-- The series `sample_gene_abundance` returns on success for sample `s`
with metric `m` (empty when the dataset is missing — that case is an error
and the lemmas below only use this under a success hypothesis). -/
def seriesAt (ec : ExperimentCollection) (m s : String) : Series :=
  match lookupStore ec.store ("/abundance/" ++ s) with
  | some d => d.rows.map (fun r => (cellAt r ec.gene_id_key, cellAt r m))
  | none => []

/-! ### make-experiment-collection.py: the build driver -/

/-- The observable outcome of a build: the published container if the build
succeeded, whether the temporary working folder still exists, and the tables
of the working container at exit (what had been written when the build
stopped). -/
structure BuildOutcome where
  published : Option Store
  tempExists : Bool
  workStore : Store
deriving DecidableEq

/-- helpers.py `exit_and_clean_up` (lines 290-305): log, delete the
temporary folder (`shutil.rmtree`), and exit nonzero.  `workStore` records
the tables written before the failing step. -/
def abortBuild (work : Store) : BuildOutcome := ⟨none, false, work⟩

/-- The default keyword arguments of `add_abundance_to_store`. -/
def defaultOtherKeys : List String := ["length", "coverage", "nreads"]

/-- make-experiment-collection.py lines 120-129: canonicalize each sample
name and ingest its abundance JSON with the default keys. -/
def processSamples (cags : Option (List (String × List JVal))) :
    List (String × Json) → Store → Except String Store
  | [], st => .ok st
  | (n, j) :: rest, st =>
    match add_abundance_to_store (canonicalizeSampleName n) j st cags
        "results" "depth" defaultOtherKeys "id" with
    | .error e => .error e
    | .ok st' => processSamples cags rest st'

/-- The inline taxonomy filter of make-experiment-collection.py line 153:
`df.loc[df["taxid"] != 0, ["gene", "taxid"]]`. -/
def taxonomyFilter (df : DF) : DF :=
  ⟨["gene", "taxid"],
    (df.rows.filter (fun r => !(decide (cellAt r "taxid" = some (.num 0))))).map
      (fun r => [("gene", cellAt r "gene"), ("taxid", cellAt r "taxid")])⟩

/-- make-experiment-collection.py `make_experiment_collection` (lines 23-204).

Inputs are the already-fetched values (paths, S3 downloads and
`pd.read_table` parsing are collapsed).  Processing order is fixed: CAG
membership, then each sample abundance, then metadata, then taxonomy, then
the eggNOG tables.  Every failing step runs `exit_and_clean_up`, which
deletes the temporary folder; on success the repacked container is
published and the temporary folder is also removed.  `repack_hdf5` produces
a recompressed but content-equivalent container, modelled as the identity;
its failure mode (a nonzero h5repack exit) is external to this model. -/
def make_experiment_collection (integrated_assembly : Option Store)
    (cags_json : Option Json) (abundance_sample_sheet : Option (List (String × Json)))
    (metadata_table : Option DF) (taxonomic_classification_tsv : Option DF)
    (eggnog_mapper_tsv : Option DF) : BuildOutcome :=
  if integrated_assembly.isNone && cags_json.isNone && abundance_sample_sheet.isNone
      && metadata_table.isNone && taxonomic_classification_tsv.isNone
      && eggnog_mapper_tsv.isNone then
    -- "No input data has been specified": the assert fires before the
    -- temporary uuid folder is even created (lines 40-47)
    ⟨none, false, []⟩
  else
    let store0 : Store := integrated_assembly.getD []
    match (match cags_json with
           | none => Except.ok ((none : Option (List (String × List JVal))), store0)
           | some cj =>
             match add_cags_to_store cj store0 with
             | .error e => .error e
             | .ok p => .ok (some p.2, p.1)) with
    | .error _ => abortBuild store0
    | .ok (cags, store1) =>
      match (match abundance_sample_sheet with
             | none => Except.ok store1
             | some sheet => processSamples cags sheet store1) with
      | .error _ => abortBuild store1
      | .ok store2 =>
        match (match metadata_table with
               | none => Except.ok store2
               | some md => add_table_to_store md store2 [("metadata", fun df => df)]) with
        | .error _ => abortBuild store2
        | .ok store3 =>
          match (match taxonomic_classification_tsv with
                 | none => Except.ok store3
                 | some tx =>
                   add_table_to_store tx store3
                     [("taxonomic_classification", taxonomyFilter)]) with
          | .error _ => abortBuild store3
          | .ok store4 =>
            match (match eggnog_mapper_tsv with
                   | none => Except.ok store4
                   | some eg =>
                     add_table_to_store eg store4
                       [("eggnog_ko", format_eggnog_ko_df),
                        ("eggnog_cluster", format_eggnog_cluster_df)]) with
            | .error _ => abortBuild store4
            | .ok store5 => ⟨some store5, false, store5⟩

/-! ### Concrete fixtures used by the claim theorems and witnesses -/

/-- Extract the store of a successful result (the error case never occurs
where this is used: the accompanying proofs show the result is `.ok`). -/
def getOkStore (e : Except String Store) : Store :=
  match e with
  | .ok s => s
  | .error _ => []

/-- Abundance record for gene g1 with depth 10. -/
def g1RecDepth : Json :=
  .obj [("id", .str "g1"), ("depth", .num 10), ("length", .num 100),
        ("coverage", .num 1), ("nreads", .num 5)]

/-- Abundance record for gene g2 with depth 30. -/
def g2RecDepth : Json :=
  .obj [("id", .str "g2"), ("depth", .num 30), ("length", .num 200),
        ("coverage", .num 2), ("nreads", .num 15)]

/-- The round-trip sample of the spec: genes g1 (10) and g2 (30). -/
def jsonDepth1030 : Json := .obj [("results", .arr [g1RecDepth, g2RecDepth])]

/-- A sample with a non-positive abundance value among two records. -/
def jsonDepthNeg : Json :=
  .obj [("results", .arr
    [g1RecDepth,
     .obj [("id", .str "g2"), ("depth", .num (-5)), ("length", .num 200),
           ("coverage", .num 2), ("nreads", .num 15)]])]

/-- The same two genes carrying an already-computed clr metric. -/
def jsonClr1030 : Json :=
  .obj [("results", .arr
    [.obj [("id", .str "g1"), ("clr", .num 10), ("length", .num 100),
           ("coverage", .num 1), ("nreads", .num 5)],
     .obj [("id", .str "g2"), ("clr", .num 30), ("length", .num 200),
           ("coverage", .num 2), ("nreads", .num 15)]])]

/-- CAG membership c1 = [g1, g2]. -/
def cagsC1 : List (String × List JVal) := [("c1", [.str "g1", .str "g2"])]

/-- A store holding only a per-sample CAG dataset for s2 (no abundance
datasets, so the sample catalog is empty). -/
def cagOnlyStore : Store :=
  [("/cag_abundance/s2",
    ⟨["cag_id", "depth"], [[("cag_id", some (.str "c1")), ("depth", some (.num 5))]]⟩)]

def cagOnlyEC : ExperimentCollection := ⟨cagOnlyStore, "id", "depth"⟩

/-- A realistic eggNOG-mapper row whose KO field is absent (NaN). -/
def eggnogMissingKO : DF :=
  ⟨["#query_name", "seed_eggNOG_ortholog", "KEGG_KOs"],
   [[("#query_name", some (.str "g1")),
     ("seed_eggNOG_ortholog", some (.str "COG1")),
     ("KEGG_KOs", none)]]⟩

/-- The eggNOG filter dictionary of make-experiment-collection.py lines 168-179. -/
def eggnogFilters : List (String × (DF → DF)) :=
  [("eggnog_ko", format_eggnog_ko_df), ("eggnog_cluster", format_eggnog_cluster_df)]

/-- A single-sample gene-abundance store: the shape the reader expects
(per-sample dataset under "/abundance/<sample>"). -/
def abundStoreS1 : Store :=
  [("/abundance/s1",
    ⟨["id", "depth", "sample"],
     [[("id", some (.str "g1")), ("depth", some (.num 10)),
       ("sample", some (.str "s1"))]]⟩)]

def readerEC : ExperimentCollection := ⟨abundStoreS1, "id", "depth"⟩

/-- A metadata table whose single row is missing the "site" column (NaN). -/
def mdTable : DF := ⟨["sample", "site"], [[("sample", some (.str "s1"))]]⟩

/-! ### Helper lemmas about stores and lists -/

theorem alookup_filter_ne {β : Type} (l : List (String × β)) (K k : String)
    (h : ¬k = K) :
    alookup (l.filter (fun p => !(decide (p.1 = K)))) k = alookup l k := by
  induction l with
  | nil => rfl
  | cons p rest ih =>
    by_cases hp : p.1 = K
    · have hk : ¬p.1 = k := fun hc => h (hc.symm.trans hp)
      have hKk : ¬K = k := fun hc => h hc.symm
      simp [List.filter_cons, hp, alookup, hk, hKk, ih]
    · by_cases hpk : p.1 = k
      · simp [List.filter_cons, hp, alookup, hpk, h]
      · simp [List.filter_cons, hp, alookup, hpk, h, ih]

theorem lookupStore_insert_self (st : Store) (k : String) (d : DF) :
    lookupStore (insertStore st k d) k = some d := by
  simp [lookupStore, insertStore, alookup]

theorem lookupStore_insert_ne (st : Store) (k k' : String) (d : DF)
    (h : ¬normKey k' = normKey k) :
    lookupStore (insertStore st k d) k' = lookupStore st k' := by
  have h' : ¬normKey k = normKey k' := fun hc => h hc.symm
  simp [lookupStore, insertStore, alookup, h', alookup_filter_ne _ _ _ h]

theorem putHdfAppend_lookup (st : Store) (n : String) (d : DF) (st' : Store)
    (h : putHdfAppend st n d = .ok st') :
    ∃ dd, lookupStore st' n = some dd ∧ dd.rows = prevRowsAt st n ++ d.rows := by
  unfold putHdfAppend at h
  cases hl : lookupStore st n with
  | none =>
    rw [hl] at h
    cases h
    exact ⟨d, lookupStore_insert_self _ _ _, by simp [prevRowsAt, hl]⟩
  | some old =>
    rw [hl] at h
    by_cases hc : old.cols = d.cols
    · simp only [hc, if_true, ite_true, eq_self_iff_true] at h
      cases h
      exact ⟨⟨d.cols, old.rows ++ d.rows⟩, lookupStore_insert_self _ _ _,
        by simp [prevRowsAt, hl]⟩
    · simp [hc] at h

theorem putHdfAppend_lookup_other (st : Store) (n : String) (d : DF) (st' : Store)
    (k : String) (h : putHdfAppend st n d = .ok st') (hk : ¬normKey k = normKey n) :
    lookupStore st' k = lookupStore st k := by
  unfold putHdfAppend at h
  cases hl : lookupStore st n with
  | none =>
    rw [hl] at h
    cases h
    exact lookupStore_insert_ne _ _ _ _ hk
  | some old =>
    rw [hl] at h
    by_cases hc : old.cols = d.cols
    · simp only [hc, if_true, ite_true, eq_self_iff_true] at h
      cases h
      exact lookupStore_insert_ne _ _ _ _ hk
    · simp [hc] at h

theorem prevRowsAt_congr (a b : Store) (k k' : String)
    (h : lookupStore a k = lookupStore b k') : prevRowsAt a k = prevRowsAt b k' := by
  simp [prevRowsAt, h]

theorem lookupStore_key_congr (st : Store) (k k' : String)
    (h : normKey k = normKey k') : lookupStore st k = lookupStore st k' := by
  simp [lookupStore, h]

theorem filter_map_eq_filterMap {α β : Type} (l : List α) (p : α → Bool) (f : α → β) :
    (l.filter p).map f = l.filterMap (fun x => if p x then some (f x) else none) := by
  induction l with
  | nil => rfl
  | cons a tl ih =>
    by_cases hp : p a
    · simp [List.filter_cons, List.filterMap_cons, hp, ih]
    · simp [List.filter_cons, List.filterMap_cons, hp, ih]

theorem alookup_map_self {β : Type} (ss : List String) (F : String → β) (s : String)
    (hs : s ∈ ss) :
    alookup (ss.map (fun x => (x, F x))) s = some (F s) := by
  induction ss with
  | nil => cases hs
  | cons a tl ih =>
    by_cases ha : a = s
    · subst ha; simp [alookup]
    · rcases List.mem_cons.mp hs with h | h
      · exact absurd h.symm ha
      · simp [alookup, ha, ih h]

theorem alookup_eq_none {α β : Type} [DecidableEq α] (l : List (α × β)) (k : α)
    (h : ∀ p ∈ l, ¬p.1 = k) :
    alookup l k = none := by
  induction l with
  | nil => rfl
  | cons p rest ih =>
    simp [alookup, h p (List.mem_cons_self _ _), ih (fun q hq => h q (List.mem_cons_of_mem _ hq))]

theorem cellAt_map_cols (cols : List String) (F : String → Cell) (c : String)
    (hc : c ∈ cols) :
    cellAt (cols.map (fun x => (x, F x))) c = F c := by
  unfold cellAt
  rw [alookup_map_self cols F c hc]
  rfl

theorem cagLoop_isOk_false (ec : ExperimentCollection) (cags : Option (List JVal))
    (m : String) (ss : List String) (s : String) (hs : s ∈ ss)
    (hmiss : lookupStore ec.store ("/cag_abundance/" ++ s) = none) :
    (cagAbundanceLoop ec cags m ss).isOk = false := by
  induction ss with
  | nil => cases hs
  | cons a tl ih =>
    by_cases ha : a = s
    · subst ha
      have hread : ec.sample_cag_abundance a (some m)
          = .error ("No object named /cag_abundance/" ++ a ++ " in the file") := by
        unfold ExperimentCollection.sample_cag_abundance
        rw [hmiss]
      simp [cagAbundanceLoop, hread, Except.isOk, Except.toBool]
    · have hmem : s ∈ tl := by
        rcases List.mem_cons.mp hs with h | h
        · exact absurd h.symm ha
        · exact h
      cases hres : ec.sample_cag_abundance a (some m) with
      | error e => simp [cagAbundanceLoop, hres, Except.isOk, Except.toBool]
      | ok ser =>
        cases hstep : (match cags with
                       | none => Except.ok ser
                       | some cl => reindexSeries ser cl) with
        | error e => simp [cagAbundanceLoop, hres, hstep, Except.isOk, Except.toBool]
        | ok ser' =>
          cases hloop : cagAbundanceLoop ec cags m tl with
          | error e => simp [cagAbundanceLoop, hres, hstep, hloop, Except.isOk, Except.toBool]
          | ok rest =>
            have hfalse := ih hmem
            rw [hloop] at hfalse
            simp [Except.isOk, Except.toBool] at hfalse

theorem cagLoop_isOk_true (ec : ExperimentCollection) (m : String) (ss : List String)
    (hall : ∀ s ∈ ss, ∃ d, lookupStore ec.store ("/cag_abundance/" ++ s) = some d
      ∧ "cag_id" ∈ d.cols ∧ m ∈ d.cols) :
    (cagAbundanceLoop ec none m ss).isOk = true := by
  induction ss with
  | nil => simp [cagAbundanceLoop, Except.isOk, Except.toBool]
  | cons a tl ih =>
    obtain ⟨d, hd, hc1, hc2⟩ := hall a (List.mem_cons_self _ _)
    have hread : ec.sample_cag_abundance a (some m)
        = .ok (d.rows.map (fun r => (cellAt r "cag_id", cellAt r m))) := by
      unfold ExperimentCollection.sample_cag_abundance
      rw [hd]
      simp [hc1, hc2]
    cases hloop : cagAbundanceLoop ec none m tl with
    | error e =>
      have htrue := ih (fun s hs => hall s (List.mem_cons_of_mem _ hs))
      rw [hloop] at htrue
      simp [Except.isOk, Except.toBool] at htrue
    | ok rest => simp [cagAbundanceLoop, hread, hloop, Except.isOk, Except.toBool]

/-! ### Claim theorems -/

/-- C1: the round-trip property fails on the code, at both ends.  (a) Building
the one-sample store with genes g1=10, g2=30 raises: with the default metric
"depth", line 225 of helpers.py calls `bool()` on a pandas Series, which
raises ValueError, so the driver aborts and publishes nothing.  (b) Even a
build that succeeds (ingesting an already-computed "clr" metric, the only
metric the guard lets through) writes the single key "/abundance", while the
reader enumerates keys under the prefix "/abundance/": the catalog comes out
empty and `geneAbundance(samples=["s1"])` is a fatal error, not the matrix. -/
theorem c1_round_trip_fails :
    (add_abundance_to_store "s1" jsonDepth1030 [] none "results" "depth"
        defaultOtherKeys "id"
      = .error "ValueError: The truth value of a Series is ambiguous.")
    ∧ (make_experiment_collection none none (some [("s1", jsonDepth1030)]) none none none
      = ⟨none, false, []⟩)
    ∧ ((ExperimentCollection.mk
          (getOkStore (add_abundance_to_store "s1" jsonClr1030 [] none "results" "clr"
            defaultOtherKeys "id")) "id" "depth").all_samples = []
       ∧ ((ExperimentCollection.mk
             (getOkStore (add_abundance_to_store "s1" jsonClr1030 [] none "results" "clr"
               defaultOtherKeys "id")) "id" "depth").gene_abundance
             none (some ["s1"]) none).isOk = false) := by
  refine ⟨by decide, by decide, by decide, by decide⟩

/-- C2: the claim fails on the code.  For a two-record sample containing a
non-positive abundance (depths 10 and -5), the guard
`if sample_dat[abundance_key] <= 0:` calls `bool()` on a pandas Series and
raises ValueError, so the sample is not appended without a clr column — the
whole build aborts (the driver catches the exception and cleans up). -/
theorem c2_nonpositive_abundance_crashes :
    (add_abundance_to_store "s1" jsonDepthNeg [] none "results" "depth"
        defaultOtherKeys "id"
      = .error "ValueError: The truth value of a Series is ambiguous.")
    ∧ (make_experiment_collection none none (some [("s1", jsonDepthNeg)]) none none none
      = ⟨none, false, []⟩) := by
  refine ⟨by decide, by decide⟩

/-- C5: confirmed, on every execution of `add_abundance_to_store` that
succeeds with CAG membership supplied.  The rows appended to the
cag_abundance table are exactly one row per CAG whose mean abundance is
strictly positive, carrying the arithmetic mean — the sum over the CAG's
member genes of (the gene's abundance in this sample, or 0 if the gene is
absent from the sample's records) divided by the number of member genes —
so in particular every CAG whose mean abundance is 0 is omitted. -/
theorem c5_cag_mean_abundance (sample_name : String) (json : Json) (store : Store)
    (cagsD : List (String × List JVal)) (rk ak : String) (oks : List String)
    (gk : String) (store' : Store)
    (h : add_abundance_to_store sample_name json store (some cagsD) rk ak oks gk
      = .ok store') :
    ∃ recs, parseAbundanceRecords json rk ak oks gk = .ok recs ∧
      ∃ dd, lookupStore store' "/cag_abundance" = some dd ∧
        dd.rows = prevRowsAt store "/cag_abundance"
          ++ cagsD.filterMap (fun p =>
               if 0 < (p.2.map (fun g => abundDictGet recs g)).sum / ((p.2.length : ℚ)) then
                 some [("cag_id", some (.str p.1)),
                       (ak, some (.num
                         ((p.2.map (fun g => abundDictGet recs g)).sum / ((p.2.length : ℚ))))),
                       ("sample", some (.str sample_name))]
               else none) := by
  unfold add_abundance_to_store at h
  cases hp : parseAbundanceRecords json rk ak oks gk with
  | error e => rw [hp] at h; cases h
  | ok recs =>
    rw [hp] at h
    refine ⟨recs, rfl, ?_⟩
    by_cases hak : ak = "clr"
    · subst hak
      simp only [if_true, ite_true, eq_self_iff_true] at h
      cases h1 : putHdfAppend store "abundance"
          (mkSampleDF recs "clr" oks gk sample_name) with
      | error e => rw [h1] at h; cases h
      | ok store1 =>
        rw [h1] at h
        dsimp only at h
        obtain ⟨dd, hdd, hrows⟩ := putHdfAppend_lookup store1 "cag_abundance"
          (mkCagDF cagsD recs "clr" sample_name) store' h
        refine ⟨dd, ?_, ?_⟩
        · rw [lookupStore_key_congr store' "/cag_abundance" "cag_abundance" (by decide)]
          exact hdd
        · rw [hrows]
          have hpres : lookupStore store1 "cag_abundance" = lookupStore store "/cag_abundance" := by
            rw [putHdfAppend_lookup_other store "abundance"
              (mkSampleDF recs "clr" oks gk sample_name) store1 "cag_abundance" h1 (by decide)]
            exact lookupStore_key_congr store "cag_abundance" "/cag_abundance" (by decide)
          rw [prevRowsAt_congr store1 store "cag_abundance" "/cag_abundance" hpres]
          congr 1
          show ((cagMeanRows cagsD recs).filter (fun p => decide (0 < p.2))).map _ = _
          rw [filter_map_eq_filterMap]
          unfold cagMeanRows
          rw [List.filterMap_map]
          congr 1
          funext p
          simp [Function.comp, meanQ, decide_eq_true_eq]
    · simp [hak] at h

/-- C5 witness: a concrete successful ingest — sample s1 carrying metric
values g1=10, g2=30 under the "clr" key (the only metric the Series truth
test lets through) with CAG c1=[g1,g2] — appends exactly one CAG row whose
abundance is the arithmetic mean (10+30)/2 = 20, matching the spec's CAG
aggregation example. -/
theorem c5_cag_mean_abundance_witness :
    ∃ dd, lookupStore
        (getOkStore (add_abundance_to_store "s1" jsonClr1030 [] (some cagsC1)
          "results" "clr" defaultOtherKeys "id")) "/cag_abundance" = some dd ∧
      dd.rows = [[("cag_id", some (.str "c1")), ("clr", some (.num 20)),
                  ("sample", some (.str "s1"))]] := by
  obtain ⟨recs, hrecs, dd, hdd, hrows⟩ :=
    c5_cag_mean_abundance "s1" jsonClr1030 [] cagsC1 "results" "clr" defaultOtherKeys "id"
      (getOkStore (add_abundance_to_store "s1" jsonClr1030 [] (some cagsC1)
        "results" "clr" defaultOtherKeys "id")) rfl
  have h2 : parseAbundanceRecords jsonClr1030 "results" "clr" defaultOtherKeys "id"
      = .ok [⟨.str "g1", 10, [("length", .num 100), ("coverage", .num 1), ("nreads", .num 5)]⟩,
             ⟨.str "g2", 30, [("length", .num 200), ("coverage", .num 2), ("nreads", .num 15)]⟩] := by
    decide
  rw [h2] at hrecs
  have hr := Except.ok.inj hrecs
  subst hr
  refine ⟨dd, hdd, ?_⟩
  rw [hrows]
  have habund1 : abundDictGet
      [⟨.str "g1", 10, [("length", .num 100), ("coverage", .num 1), ("nreads", .num 5)]⟩,
       ⟨.str "g2", 30, [("length", .num 200), ("coverage", .num 2), ("nreads", .num 15)]⟩]
      (.str "g1") = 10 := by decide
  have habund2 : abundDictGet
      [⟨.str "g1", 10, [("length", .num 100), ("coverage", .num 1), ("nreads", .num 5)]⟩,
       ⟨.str "g2", 30, [("length", .num 200), ("coverage", .num 2), ("nreads", .num 15)]⟩]
      (.str "g2") = 30 := by decide
  simp only [cagsC1, List.filterMap_cons, List.filterMap_nil, List.map_cons, List.map_nil,
    habund1, habund2, List.sum_cons, List.sum_nil, List.length_cons, List.length_nil]
  norm_num [prevRowsAt, lookupStore, alookup]

/-- C6: no execution ever computes a CLR for CAG rows.  The CAG CLR lines
(269-273) run only when `abundance_key != "clr"`, but every such execution
already raised ValueError at line 225 (the Series truth test) before
reaching them — here shown on the sample g1=10, g2=30 with CAG c1=[g1,g2].
When the metric is "clr" the whole derived-CLR block is skipped, so CAG rows
never carry a derived log-ratio at all. -/
theorem c6_cag_clr_unreachable :
    add_abundance_to_store "s1" jsonDepth1030 [] (some cagsC1) "results" "depth"
        defaultOtherKeys "id"
      = .error "ValueError: The truth value of a Series is ambiguous." := by decide

/-- C7: the claim fails on the code.  For the all-positive sample [10, 30]
(metric "depth", not "clr"), the spec expects CLR values of about
[-0.2375, 0.2375]; instead the guard at helpers.py line 225 calls `bool()`
on a pandas Series and raises ValueError, so no CLR is ever computed for a
multi-record sample and the ingest fails. -/
theorem c7_clr_formula_unreachable :
    add_abundance_to_store "s1" jsonDepth1030 [] none "results" "depth"
        defaultOtherKeys "id"
      = .error "ValueError: The truth value of a Series is ambiguous." := by decide

/-- C8: confirmed.  A CAG-membership JSON shaped as a list fails the
`isinstance(dat, dict)` assert inside `read_json`, which fires before any
`to_hdf` call; the CAG step is the first build step, so the build aborts
with zero tables written, and `exit_and_clean_up` removes the temporary
folder (working HDF5 file included), whatever the other inputs are. -/
theorem c8_list_shaped_cags_abort (xs : List Json)
    (sheet : Option (List (String × Json))) (md tx eg : Option DF) :
    make_experiment_collection none (some (.arr xs)) sheet md tx eg
      = ⟨none, false, []⟩ := rfl

/-- C3 counterexample: the two accessors do not share a contract.  In a store
holding a per-sample CAG dataset for s2 but no gene-abundance dataset, s2 is
not in the sample catalog, yet `cag_abundance(samples=["s2"])` returns data
without any error — it never checks the catalog — while
`gene_abundance(samples=["s2"])` raises.  So it is false that both accessors
raise a fatal error for every sample id missing from the catalog. -/
theorem c3_cag_accessor_no_catalog_check :
    (cagOnlyEC.all_samples = [])
    ∧ ((cagOnlyEC.cag_abundance none (some ["s2"]) none).isOk = true)
    ∧ ((cagOnlyEC.gene_abundance none (some ["s2"]) none).isOk = false) := by
  refine ⟨by decide, by decide, by decide⟩

/-- C4 counterexample: a row whose KO field is absent does contribute an
output row.  `add_table_to_store` fills the NaN with the string "none"
before `format_eggnog_ko_df` runs; "none" is a string of positive length,
so the filter keeps the row and the persisted eggnog_ko table holds the
pair (g1, "none") instead of being empty. -/
theorem c4_absent_ko_not_dropped :
    lookupStore (getOkStore (add_table_to_store eggnogMissingKO [] eggnogFilters))
        "eggnog_ko"
      = some ⟨["gene", "ko"], [[("gene", some (.str "g1")), ("ko", some (.str "none"))]]⟩ := by
  decide

/-- C3 amended: the two accessors do not share a contract.  (i) gene_abundance
raises a fatal error whenever an explicitly requested sample is missing from
the sample catalog.  (ii) cag_abundance never consults the catalog: it fails
exactly when a requested per-sample CAG dataset cannot be read — shown here
as (ii-a) a missing dataset key makes it fail, and (ii-b) whenever every
requested sample's CAG dataset exists with the cag_id column and the metric
column, it succeeds, whether or not those samples are in the catalog. -/
theorem c3_accessor_contracts :
    (∀ (ec : ExperimentCollection) (genes : Option (List JVal)) (ss : List String)
       (metric : Option String) (s : String), s ∈ ss → s ∉ ec.all_samples →
       (ec.gene_abundance genes (some ss) metric).isOk = false)
    ∧ (∀ (ec : ExperimentCollection) (cags : Option (List JVal)) (ss : List String)
         (metric : Option String) (s : String), s ∈ ss →
         lookupStore ec.store ("/cag_abundance/" ++ s) = none →
         (ec.cag_abundance cags (some ss) metric).isOk = false)
    ∧ (∀ (ec : ExperimentCollection) (ss : List String) (metric : Option String),
         (∀ s ∈ ss, ∃ d, lookupStore ec.store ("/cag_abundance/" ++ s) = some d
           ∧ "cag_id" ∈ d.cols ∧ (metric.getD ec.abund_id_key) ∈ d.cols) →
         (ec.cag_abundance none (some ss) metric).isOk = true) := by
  refine ⟨?_, ?_, ?_⟩
  · intro ec genes ss metric s hs hns
    have hall : ss.all (fun x => decide (x ∈ ec.all_samples)) = false := by
      cases hA : ss.all (fun x => decide (x ∈ ec.all_samples)) with
      | false => rfl
      | true => exact absurd (of_decide_eq_true (List.all_eq_true.mp hA s hs)) hns
    unfold ExperimentCollection.gene_abundance
    simp [hall, Except.isOk, Except.toBool]
  · intro ec cags ss metric s hs hmiss
    unfold ExperimentCollection.cag_abundance
    exact cagLoop_isOk_false ec cags _ ss s hs hmiss
  · intro ec ss metric hall
    unfold ExperimentCollection.cag_abundance
    exact cagLoop_isOk_true ec _ ss hall

/-- C3 witness for the amended contracts, at concrete stores: requesting the
non-catalog sample s2 makes gene_abundance fail; on an empty store (no CAG
dataset) cag_abundance fails for s2; on the store holding only
/cag_abundance/s2, cag_abundance succeeds for s2 even though the catalog is
empty. -/
theorem c3_accessor_contracts_witness :
    ((cagOnlyEC.gene_abundance none (some ["s2"]) none).isOk = false)
    ∧ (((⟨[], "id", "depth"⟩ : ExperimentCollection).cag_abundance
        none (some ["s2"]) none).isOk = false)
    ∧ ((cagOnlyEC.cag_abundance none (some ["s2"]) none).isOk = true) := by
  refine ⟨?_, ?_, ?_⟩
  · exact c3_accessor_contracts.1 cagOnlyEC none ["s2"] none "s2" (by decide) (by decide)
  · exact c3_accessor_contracts.2.1 ⟨[], "id", "depth"⟩ none ["s2"] none "s2"
      (by decide) (by decide)
  · refine c3_accessor_contracts.2.2 cagOnlyEC ["s2"] none ?_
    intro s hs
    have hseq : s = "s2" := by
      rcases List.mem_singleton.mp hs with h
      exact h
    subst hseq
    exact ⟨⟨["cag_id", "depth"],
      [[("cag_id", some (.str "c1")), ("depth", some (.num 5))]]⟩,
      by decide, by decide, by decide⟩

theorem sample_gene_abundance_ok (ec : ExperimentCollection) (s m : String) (d : DF)
    (hd : lookupStore ec.store ("/abundance/" ++ s) = some d)
    (h1 : ec.gene_id_key ∈ d.cols) (h2 : m ∈ d.cols) :
    ec.sample_gene_abundance s (some m) = .ok (seriesAt ec m s) := by
  unfold ExperimentCollection.sample_gene_abundance seriesAt
  rw [hd]
  simp [h1, h2]

theorem geneAbundanceLoop_ok (ec : ExperimentCollection) (genes : List JVal)
    (m : String) (ss : List String)
    (hall : ∀ s ∈ ss,
      (∃ d, lookupStore ec.store ("/abundance/" ++ s) = some d
        ∧ ec.gene_id_key ∈ d.cols ∧ m ∈ d.cols)
      ∧ listHasDup ((seriesAt ec m s).map (fun p => p.1)) = false) :
    geneAbundanceLoop ec (some genes) m ss
      = .ok (ss.map (fun s =>
          (s, genes.map (fun g => (some g, seriesGet (seriesAt ec m s) (some g)))))) := by
  induction ss with
  | nil => rfl
  | cons a tl ih =>
    obtain ⟨⟨d, hd, h1, h2⟩, hnd⟩ := hall a (List.mem_cons_self _ _)
    have hread := sample_gene_abundance_ok ec a m d hd h1 h2
    have hreindex : reindexSeries (seriesAt ec m a) genes
        = .ok (genes.map (fun g => (some g, seriesGet (seriesAt ec m a) (some g)))) := by
      unfold reindexSeries
      simp [hnd]
    have hrest := ih (fun s hs => hall s (List.mem_cons_of_mem _ hs))
    simp [geneAbundanceLoop, hread, hreindex, hrest]

/-- C9: confirmed.  In a well-formed store (every requested sample is in the
catalog, its dataset exists with the gene id column and the metric column,
and its gene index has no duplicates), requesting a gene set containing a
gene `g` absent from sample `s0`'s records makes `gene_abundance` succeed —
never an error — and the returned matrix column for `s0` carries the
missing-value cell `(g, NaN)`. -/
theorem c9_absent_gene_missing_cell (ec : ExperimentCollection) (genes : List JVal)
    (ss : List String) (metric : Option String) (s0 : String) (g : JVal)
    (hvalid : ∀ s ∈ ss, s ∈ ec.all_samples)
    (hread : ∀ s ∈ ss, ∃ d, lookupStore ec.store ("/abundance/" ++ s) = some d
      ∧ ec.gene_id_key ∈ d.cols ∧ (metric.getD ec.abund_id_key) ∈ d.cols)
    (hnodup : ∀ s ∈ ss,
      listHasDup ((seriesAt ec (metric.getD ec.abund_id_key) s).map (fun p => p.1)) = false)
    (hs0 : s0 ∈ ss) (hg : g ∈ genes)
    (habsent : ∀ p ∈ seriesAt ec (metric.getD ec.abund_id_key) s0, ¬p.1 = some g) :
    ∃ M, ec.gene_abundance (some genes) (some ss) metric = .ok M
      ∧ ∃ ser, alookup M s0 = some ser ∧ (some g, (none : Cell)) ∈ ser := by
  have hall : ss.all (fun x => decide (x ∈ ec.all_samples)) = true :=
    List.all_eq_true.mpr (fun x hx => decide_eq_true (hvalid x hx))
  have hloop := geneAbundanceLoop_ok ec genes (metric.getD ec.abund_id_key) ss
    (fun s hs => ⟨hread s hs, hnodup s hs⟩)
  refine ⟨ss.map (fun s =>
      (s, genes.map (fun g2 =>
        (some g2, seriesGet (seriesAt ec (metric.getD ec.abund_id_key) s) (some g2))))),
    ?_, ?_⟩
  · unfold ExperimentCollection.gene_abundance
    simp only [hall, if_true, ite_true]
    exact hloop
  · refine ⟨genes.map (fun g2 =>
      (some g2, seriesGet (seriesAt ec (metric.getD ec.abund_id_key) s0) (some g2))),
      alookup_map_self ss _ s0 hs0, ?_⟩
    have hnone : seriesGet (seriesAt ec (metric.getD ec.abund_id_key) s0) (some g) = none := by
      unfold seriesGet
      rw [alookup_eq_none _ _ habsent]
      rfl
    have hm := List.mem_map_of_mem (fun g2 =>
      (some g2, seriesGet (seriesAt ec (metric.getD ec.abund_id_key) s0) (some g2))) hg
    simpa [hnone] using hm

/-- C9 witness: in the one-sample store (s1 holding only gene g1 = 10),
requesting genes [g1, g2] for sample s1 succeeds and the returned column
for s1 contains the missing-value cell (g2, NaN). -/
theorem c9_absent_gene_missing_cell_witness :
    ∃ M, readerEC.gene_abundance (some [.str "g1", .str "g2"]) (some ["s1"]) none = .ok M
      ∧ ∃ ser, alookup M "s1" = some ser ∧ ((some (.str "g2"), (none : Cell)) ∈ ser) := by
  refine c9_absent_gene_missing_cell readerEC [.str "g1", .str "g2"] ["s1"] none "s1"
    (.str "g2") (by decide) ?_ (by decide) (by decide) (by decide) (by decide)
  intro s hs
  have hseq : s = "s1" := List.mem_singleton.mp hs
  subst hseq
  exact ⟨⟨["id", "depth", "sample"],
    [[("id", some (.str "g1")), ("depth", some (.num 10)), ("sample", some (.str "s1"))]]⟩,
    by decide, by decide, by decide⟩

theorem filter_flatMap {α β : Type} (l : List α) (p : α → Bool) (f : α → List β) :
    (l.filter p).flatMap f = l.flatMap (fun x => if p x then f x else []) := by
  induction l with
  | nil => rfl
  | cons a tl ih =>
    by_cases hp : p a
    · simp [List.filter_cons, hp, ih]
    · simp [List.filter_cons, hp, ih]

theorem addTablesLoop_preserves (df : DF) (filters : List (String × (DF → DF)))
    (st st' : Store) (K : String)
    (h : addTablesLoop df filters st = .ok st')
    (hK : ∀ p ∈ filters, ¬normKey p.1 = normKey K) :
    lookupStore st' K = lookupStore st K := by
  induction filters generalizing st with
  | nil =>
    unfold addTablesLoop at h
    cases h
    rfl
  | cons p rest ih =>
    obtain ⟨nm0, f0⟩ := p
    unfold addTablesLoop at h
    by_cases hN : noNaN (f0 df)
    · rw [if_pos hN] at h
      have h1 := ih (putHdf st nm0 (f0 df)) h
        (fun q hq => hK q (List.mem_cons_of_mem _ hq))
      rw [h1]
      exact lookupStore_insert_ne st nm0 K (f0 df)
        (fun hc => hK (nm0, f0) (List.mem_cons_self _ _) hc.symm)
    · rw [if_neg hN] at h
      cases h

theorem addTablesLoop_ok (df : DF) (filters : List (String × (DF → DF)))
    (st st' : Store)
    (h : addTablesLoop df filters st = .ok st')
    (hnd : (filters.map (fun p => normKey p.1)).Nodup) :
    ∀ nm f, (nm, f) ∈ filters →
      lookupStore st' nm = some (f df) ∧ noNaN (f df) = true := by
  induction filters generalizing st with
  | nil => intro nm f hmem; cases hmem
  | cons p rest ih =>
    obtain ⟨nm0, f0⟩ := p
    unfold addTablesLoop at h
    by_cases hN : noNaN (f0 df)
    · rw [if_pos hN] at h
      intro nm f hmem
      rcases List.mem_cons.mp hmem with heq | hmem'
      · injection heq with h1 h2
        subst h1
        subst h2
        have hnotin : ∀ q ∈ rest, ¬normKey q.1 = normKey nm := by
          intro q hq hc
          have hmm := List.mem_map_of_mem (fun p => normKey p.1) hq
          simp only [] at hmm
          rw [hc] at hmm
          exact (List.nodup_cons.mp hnd).1 hmm
        have hpres := addTablesLoop_preserves df rest (putHdf st nm (f df)) st' nm h hnotin
        rw [hpres]
        exact ⟨lookupStore_insert_self st nm (f df), hN⟩
      · exact ih (putHdf st nm0 (f0 df)) h (List.nodup_cons.mp hnd).2 nm f hmem'
    · rw [if_neg hN] at h
      cases h

/-- C10: confirmed.  (1) After `fillna`, the table holds no NaN cell.
(2) Every cell that was missing in the raw table reads back as the string
"none" in the corresponding filled row.  (3) When `add_table_to_store`
succeeds, each persisted table is exactly its filter function applied to the
filled table — so every filter ran on the null-free table — and it passes
the no-NaN check, so every persisted row is null-free. -/
theorem c10_fillna_before_filters (df : DF) (store : Store)
    (filters : List (String × (DF → DF))) (store' : Store) :
    (noNaN (fillna df) = true)
    ∧ (∀ r ∈ df.rows, ∀ c ∈ df.cols, cellAt r c = none →
        (df.cols.map (fun c2 => (c2, some ((cellAt r c2).getD (.str "none"))))) ∈ (fillna df).rows
        ∧ cellAt (df.cols.map (fun c2 => (c2, some ((cellAt r c2).getD (.str "none"))))) c
            = some (.str "none"))
    ∧ (add_table_to_store df store filters = .ok store' →
       (filters.map (fun p => normKey p.1)).Nodup →
       ∀ nm f, (nm, f) ∈ filters →
         lookupStore store' nm = some (f (fillna df)) ∧ noNaN (f (fillna df)) = true) := by
  refine ⟨?_, ?_, ?_⟩
  · unfold noNaN
    rw [List.all_eq_true]
    intro r' hr'
    simp only [fillna] at hr'
    obtain ⟨r, hr, rfl⟩ := List.mem_map.mp hr'
    rw [List.all_eq_true]
    intro c hc
    simp only [fillna] at hc
    have hcell := cellAt_map_cols df.cols
      (fun c2 => some ((cellAt r c2).getD (.str "none"))) c hc
    simp only [] at hcell
    simp [hcell]
  · intro r hr c hc hcnone
    have hcell := cellAt_map_cols df.cols
      (fun c2 => some ((cellAt r c2).getD (.str "none"))) c hc
    simp only [] at hcell
    constructor
    · show _ ∈ (fillna df).rows
      simp only [fillna]
      exact List.mem_map_of_mem _ hr
    · rw [hcell, hcnone]
      rfl
  · intro hok hnd nm f hmem
    exact addTablesLoop_ok (fillna df) filters store store' hok hnd nm f hmem

/-- C10 witness: a metadata table whose row is missing the "site" column,
run through `add_table_to_store` with the identity metadata filter — the
persisted table is the filled table, it is null-free, and the missing cell
reads back as the string "none". -/
theorem c10_fillna_before_filters_witness :
    (add_table_to_store mdTable [] [("metadata", fun d => d)]
      = .ok (getOkStore (add_table_to_store mdTable [] [("metadata", fun d => d)])))
    ∧ (lookupStore (getOkStore (add_table_to_store mdTable [] [("metadata", fun d => d)]))
          "metadata" = some (fillna mdTable)
       ∧ noNaN (fillna mdTable) = true)
    ∧ cellAt (mdTable.cols.map (fun c2 =>
        (c2, some ((cellAt ([("sample", some (.str "s1"))] : Row) c2).getD (.str "none")))))
        "site" = some (.str "none") := by
  refine ⟨rfl, ?_, ?_⟩
  · exact (c10_fillna_before_filters mdTable [] [("metadata", fun d => d)] _).2.2 rfl
      (by decide) "metadata" (fun d => d) (List.mem_singleton.mpr rfl)
  · exact ((c10_fillna_before_filters mdTable [] [("metadata", fun d => d)] []).2.1
      [("sample", some (.str "s1"))] (by decide) "site" (by decide) (by decide)).2

/-- C4 amended: the exact row law of the persisted eggnog_ko transformation
under the fillna preprocessing of `add_table_to_store`.  A row whose KO cell
is a nonempty string yields one (gene, ko) row per comma token; a row whose
KO cell is the empty string yields nothing; a row whose KO cell is missing
(NaN) has been filled with "none" and yields the single row (gene, "none");
a numeric KO cell yields nothing (it fails the isinstance(str) test). -/
theorem c4_eggnog_ko_rows (df : DF) (hq : "#query_name" ∈ df.cols)
    (hk : "KEGG_KOs" ∈ df.cols) :
    (format_eggnog_ko_df (fillna df)).rows = df.rows.flatMap (fun r =>
      match (cellAt r "KEGG_KOs").getD (.str "none") with
      | .num _ => []
      | .str s =>
        if s.data.length = 0 then []
        else (pySplitComma s).map (fun ko =>
          [("gene", some ((cellAt r "#query_name").getD (.str "none"))),
           ("ko", some (.str ko))])) := by
  show ((fillna df).rows.filter _).flatMap _ = _
  rw [filter_flatMap]
  simp only [fillna]
  rw [List.flatMap_map]
  congr 1
  funext r
  have hko := cellAt_map_cols df.cols
    (fun c2 => some ((cellAt r c2).getD (.str "none"))) "KEGG_KOs" hk
  have hqn := cellAt_map_cols df.cols
    (fun c2 => some ((cellAt r c2).getD (.str "none"))) "#query_name" hq
  simp only [] at hko hqn
  rw [hko, hqn]
  cases hval : (cellAt r "KEGG_KOs").getD (.str "none") with
  | num q => simp
  | str s =>
    by_cases hlen : s.data.length = 0
    · simp [hlen]
    · have hlen' : ¬s.length = 0 := hlen
      simp [hlen', Nat.pos_of_ne_zero hlen']

/-- C4 witness for the amended row law, at the concrete table whose single
row has gene g1 and a missing KO cell: the law applies with both required
columns present. -/
theorem c4_eggnog_ko_rows_witness :
    (format_eggnog_ko_df (fillna eggnogMissingKO)).rows
      = eggnogMissingKO.rows.flatMap (fun r =>
        match (cellAt r "KEGG_KOs").getD (.str "none") with
        | .num _ => []
        | .str s =>
          if s.data.length = 0 then []
          else (pySplitComma s).map (fun ko =>
            [("gene", some ((cellAt r "#query_name").getD (.str "none"))),
             ("ko", some (.str ko))])) :=
  c4_eggnog_ko_rows eggnogMissingKO (by decide) (by decide)

/-- C8 witness: the abort at a concrete list-shaped CAG JSON (the empty
list) with no other inputs. -/
theorem c8_list_shaped_cags_abort_witness :
    make_experiment_collection none (some (.arr [])) none none none none
      = ⟨none, false, []⟩ :=
  c8_list_shaped_cags_abort [] none none none none
